import Mathlib

/-!
Shallow embedding of the telemetry-ingestion backend (`src/server.ts` with the
Prisma data model of `prisma/schema.prisma`).

The storage collaborator is modelled as an in-memory database value; Prisma
calls become pure functions over it.  Route handlers become functions from the
database and the parsed request to a response together with the resulting
database.  External collaborators (bcrypt, JWT signing, zod date validation)
are modelled by small executable stand-ins that preserve exactly the behaviour
the handlers depend on: one-way hashing with verification, signature-checked
tokens, and a datetime string that either denotes an instant or is malformed.
-/

namespace SmhdApi

/-! ## Data model (prisma/schema.prisma) -/

/-- `model User`: unique id, unique email, bcrypt password hash.
(`createdAt` is system-assigned and read by no handler, so it is omitted.) -/
structure User where
  id : Nat
  email : String
  password : String
deriving DecidableEq

/-- `model Device`: unique id, unique serial number. -/
structure Device where
  id : Nat
  serialNumber : String
deriving DecidableEq

/-- `model UserDevice`: ownership link row (userId, deviceId). -/
structure UserDevice where
  userId : Nat
  deviceId : Nat
deriving DecidableEq

/-- `model DeviceEvent`: sensor event row.  The four sensor readings are
nullable (`Float?`) in the storage schema; timestamps are modelled as
integers. -/
structure DeviceEvent where
  deviceId : Nat
  macAddress : String
  ipAddress : String
  soilMoisture : Option Int
  humidity : Option Int
  temperature : Option Int
  lighIntensity : Option Int
  happenedAt : Int
deriving DecidableEq

/-- The storage collaborator: the four collections plus an id source for
`@default(auto())` row ids. -/
structure Db where
  users : List User
  devices : List Device
  userDevices : List UserDevice
  deviceEvents : List DeviceEvent
  nextId : Nat
deriving DecidableEq

/-! ## External collaborators -/

/-- Process environment.  `JWT_SECRET_KEY` is read with `as string` (assumed
present); `API_KEY` and `JWT_EXPIRES_IN` may be absent. -/
structure Env where
  apiKey : Option String
  jwtSecretKey : String
  jwtExpiresIn : Option String
deriving DecidableEq

/-- Model of bcrypt `hash(plaintext, cost)`: an injective one-way stand-in
tagged with the work cost. -/
def bcryptHash (plaintext : String) (cost : Nat) : String :=
  "bcrypt" ++ toString cost ++ "$" ++ plaintext

/-- Model of bcrypt `compare(plaintext, digest)`: true iff the digest was
produced from this plaintext at the cost the server uses (8). -/
def bcryptCompare (plaintext digest : String) : Bool :=
  digest == bcryptHash plaintext 8

/-- JWT claim set signed by the server: `{ id, email }`. -/
structure JwtPayload where
  id : Nat
  email : String
deriving DecidableEq

/-- Model of a signed token: the payload, the `expiresIn` option it was signed
with, and the signing secret standing in for the signature. -/
structure Token where
  payload : JwtPayload
  expiresIn : String
  sig : String
deriving DecidableEq

/-- `app.jwt.sign(payload, { expiresIn })`. -/
def jwtSign (secret : String) (p : JwtPayload) (expiresIn : String) : Token :=
  ⟨p, expiresIn, secret⟩

/-- `request.jwtVerify()`: accepts exactly tokens signed with the server
secret.  (Expiry checking is abstracted: the model has no clock and no claim
concerns expiry at a particular time.) -/
def jwtVerify (secret : String) (t : Token) : Option JwtPayload :=
  if t.sig == secret then some t.payload else none

/-- Model of a datetime string as zod `z.string().datetime()` sees it: either
a well-formed ISO-8601 instant, carried as the timestamp it denotes, or a
malformed string. -/
inductive DateStr
  | iso (timestamp : Int)
  | malformed (raw : String)
deriving DecidableEq

/-- zod `z.string().datetime().parse` followed by `new Date(...)`. -/
def parseDatetime : DateStr → Option Int
  | .iso t => some t
  | .malformed _ => none

/-- zod `z.optional(z.string().datetime()).parse`: absence is accepted, a
present malformed string fails. -/
def parseOptDatetime : Option DateStr → Option (Option Int)
  | none => some none
  | some d => (parseDatetime d).map some

/-! ## Responses -/

/-- The response bodies the handlers produce. -/
inductive Body
  | empty
  | message (m : String)
  | token (t : Token)
  | device (d : Device)
  | devices (ds : List Device)
  | events (es : List DeviceEvent)
  | event (e : DeviceEvent)
  | jwtError
  | zodError
  | storageError
deriving DecidableEq

structure Response where
  status : Nat
  body : Body
deriving DecidableEq

/-- A thrown zod `.parse` error, mapped by the boundary to the
`ValidationError` client error of the spec. -/
def zodErrorResponse : Response := ⟨400, .zodError⟩

/-- A failed `request.jwtVerify()` sent back by the `authenticate`
decorator. -/
def unauthorizedResponse : Response := ⟨401, .jwtError⟩

/-- A storage-layer failure (e.g. Prisma `delete` on a missing record),
surfaced as a generic server error. -/
def storageErrorResponse : Response := ⟨500, .storageError⟩

/-- A handler finishes with a response and the resulting database. -/
structure HandlerResult where
  response : Response
  db : Db
deriving DecidableEq

/-! ## Handlers (src/server.ts) -/

/-- `databaseClient.device.findFirst({ where: { serialNumber } })`. -/
def findDeviceBySerial (db : Db) (serialNumber : String) : Option Device :=
  db.devices.find? (fun d => d.serialNumber == serialNumber)

/-- `databaseClient.user.findFirst({ where: { email } })`. -/
def findUserByEmail (db : Db) (email : String) : Option User :=
  db.users.find? (fun u => u.email == email)

/-- The `expiresIn` used by `POST /auth/register`:
`process.env.JWT_EXPIRES_IN || "1d"` (JS `||`, so an empty string also falls
back). -/
def registerExpiresIn (env : Env) : String :=
  match env.jwtExpiresIn with
  | some s => if s == "" then "1d" else s
  | none => "1d"

/-- The `expiresIn` used by `POST /auth/login`: the literal `"7d"`. -/
def loginExpiresIn : String := "7d"

/-- Duration in seconds denoted by an `expiresIn` string, for the values the
source can produce by default (jsonwebtoken / zeit-ms semantics). -/
def expiresInSeconds : String → Option Nat
  | "1d" => some 86400
  | "7d" => some 604800
  | _ => none

/-- `POST /auth/register` handler body, after the zod shape parse. -/
def registerHandler (env : Env) (db : Db) (email password : String) :
    HandlerResult :=
  match findUserByEmail db email with
  | some _ => ⟨⟨409, .message "User already exists"⟩, db⟩
  | none =>
    let passwordHash := bcryptHash password 8
    let user : User := ⟨db.nextId, email, passwordHash⟩
    let db1 : Db := { db with users := db.users ++ [user], nextId := db.nextId + 1 }
    let token := jwtSign env.jwtSecretKey ⟨user.id, user.email⟩ (registerExpiresIn env)
    ⟨⟨201, .token token⟩, db1⟩

/-- `POST /auth/login` handler body, after the zod shape parse. -/
def loginHandler (env : Env) (db : Db) (email password : String) :
    HandlerResult :=
  match findUserByEmail db email with
  | none => ⟨⟨401, .message "Email or password incorrect"⟩, db⟩
  | some user =>
    if !bcryptCompare password user.password then
      ⟨⟨401, .message "Email or password incorrect"⟩, db⟩
    else
      ⟨⟨200, .token (jwtSign env.jwtSecretKey ⟨user.id, user.email⟩ loginExpiresIn)⟩, db⟩

/-- `POST /devices` handler body (authenticated), after the zod shape
parse. -/
def createDeviceHandler (db : Db) (user : JwtPayload) (serialNumber : String) :
    HandlerResult :=
  match findDeviceBySerial db serialNumber with
  | some deviceAlreadyExists => ⟨⟨201, .device deviceAlreadyExists⟩, db⟩
  | none =>
    let device : Device := ⟨db.nextId, serialNumber⟩
    let db1 : Db := { db with devices := db.devices ++ [device], nextId := db.nextId + 1 }
    let db2 : Db := { db1 with userDevices := db1.userDevices ++ [⟨user.id, device.id⟩] }
    ⟨⟨201, .device device⟩, db2⟩

/-- `DELETE /devices/:id` handler body (authenticated).
`userDevice.deleteMany` removes the rows matching `{ userId: request.user.id,
deviceId: id }`; `device.delete({ where: { id } })` removes the device, or
throws (Prisma P2025, a server error) when no such device exists. -/
def deleteDeviceHandler (db : Db) (user : JwtPayload) (id : Nat) :
    HandlerResult :=
  let db1 : Db := { db with
    userDevices := db.userDevices.filter
      (fun ud => !(ud.userId == user.id && ud.deviceId == id)) }
  if db1.devices.any (fun d => d.id == id) then
    ⟨⟨200, .empty⟩, { db1 with devices := db1.devices.filter (fun d => !(d.id == id)) }⟩
  else
    ⟨storageErrorResponse, db1⟩

/-- `GET /devices` handler body (authenticated). -/
def listDevicesHandler (db : Db) (user : JwtPayload) : HandlerResult :=
  let userDevices := db.userDevices.filter (fun ud => ud.userId == user.id)
  let deviceIds := userDevices.map (fun ud => ud.deviceId)
  let devices := db.devices.filter (fun d => deviceIds.contains d.id)
  ⟨⟨200, .devices devices⟩, db⟩

/-- The `happenedAt` filter object assembled into `queryArgs` by the three
`if` blocks of the event-listing handler. -/
inductive HappenedAtFilter
  | noFilter
  | gteOnly (s : Int)
  | lteOnly (e : Int)
  | lteGte (e s : Int)
deriving DecidableEq

/-- The three mutually exclusive `if` blocks over `(startDate, endDate)`:
both present sets `{ lte: endDate, gte: startDate }`, only `startDate` sets
`{ gte }`, only `endDate` sets `{ lte }`, neither leaves `queryArgs` empty. -/
def buildQueryArgs : Option Int → Option Int → HappenedAtFilter
  | some s, some e => .lteGte e s
  | some s, none => .gteOnly s
  | none, some e => .lteOnly e
  | none, none => .noFilter

/-- Prisma semantics of the assembled `happenedAt` filter (`lte`/`gte` are
inclusive). -/
def HappenedAtFilter.matches : HappenedAtFilter → Int → Bool
  | .noFilter, _ => true
  | .gteOnly s, t => s ≤ t
  | .lteOnly e, t => t ≤ e
  | .lteGte e s, t => t ≤ e && s ≤ t

/-- `GET /devices/:serialNumber/events` handler body (authenticated).  Order
preserved from the source: serial-number presence check, then the device
lookup (404 when absent), then the zod parse of the query dates, then the
event query. -/
def getDeviceEventsHandler (db : Db) (_user : JwtPayload) (serialNumber : String)
    (startDate endDate : Option DateStr) : HandlerResult :=
  if serialNumber == "" then
    ⟨⟨400, .message "Serial number must be provided"⟩, db⟩
  else
    match findDeviceBySerial db serialNumber with
    | none => ⟨⟨404, .message "Can not find the device"⟩, db⟩
    | some device =>
      match parseOptDatetime startDate, parseOptDatetime endDate with
      | some s, some e =>
        let args := buildQueryArgs s e
        let deviceEvents := db.deviceEvents.filter
          (fun ev => ev.deviceId == device.id && args.matches ev.happenedAt)
        ⟨⟨200, .events deviceEvents⟩, db⟩
      | _, _ => ⟨zodErrorResponse, db⟩

/-- Request body of the ingestion route as received, before the zod parse:
every field may be absent.  (The `.ip()` format refinement on `ipAddress` is
abstracted; only field presence matters to the handlers.) -/
structure RawEventBody where
  macAddress : Option String
  ipAddress : Option String
  soilMoisture : Option Int
  humidity : Option Int
  temperature : Option Int
  lighIntensity : Option Int
  happenedAt : Option DateStr
deriving DecidableEq

/-- The ingestion body after `eventSchema.parse`: every field required. -/
structure EventInput where
  macAddress : String
  ipAddress : String
  soilMoisture : Int
  humidity : Int
  temperature : Int
  lighIntensity : Int
  happenedAt : Int
deriving DecidableEq

/-- `eventSchema.parse(request.body)`: all seven fields are required
(`z.number()`, not `z.number().optional()`), and `happenedAt` must be a
well-formed datetime. -/
def eventSchemaParse (b : RawEventBody) : Option EventInput :=
  match b.macAddress, b.ipAddress, b.soilMoisture, b.humidity,
        b.temperature, b.lighIntensity, b.happenedAt with
  | some mac, some ip, some sm, some h, some t, some li, some d =>
    (parseDatetime d).map (fun ts => ⟨mac, ip, sm, h, t, li, ts⟩)
  | _, _, _, _, _, _, _ => none

/-- `POST /devices/:serialNumber/events` handler body (ingestion route, no
session gate).  Order preserved: zod parse first, then the serial-number
check, then find-or-create the device, then the event insert. -/
def ingestEventHandler (db : Db) (serialNumber : String) (body : RawEventBody) :
    HandlerResult :=
  match eventSchemaParse body with
  | none => ⟨zodErrorResponse, db⟩
  | some input =>
    if serialNumber == "" then
      ⟨⟨400, .message "Serial number must be provided"⟩, db⟩
    else
      let found := findDeviceBySerial db serialNumber
      let device := match found with
        | some d => d
        | none => ⟨db.nextId, serialNumber⟩
      let db1 : Db := match found with
        | some _ => db
        | none => { db with devices := db.devices ++ [device], nextId := db.nextId + 1 }
      let deviceEvent : DeviceEvent := ⟨device.id, input.macAddress, input.ipAddress,
        some input.soilMoisture, some input.humidity, some input.temperature,
        some input.lighIntensity, input.happenedAt⟩
      ⟨⟨201, .event deviceEvent⟩,
        { db1 with deviceEvents := db1.deviceEvents ++ [deviceEvent] }⟩

/-! ## Request dispatch -/

/-- A parsed route call together with its already-extracted inputs. -/
inductive RouteCall
  | authRegister (email password : String)
  | authLogin (email password : String)
  | devicesCreate (serialNumber : String)
  | devicesDelete (id : Nat)
  | devicesList
  | eventsList (serialNumber : String) (startDate endDate : Option DateStr)
  | eventsIngest (serialNumber : String) (body : RawEventBody)
deriving DecidableEq

/-- An inbound request: the `x-api-key` header, the bearer token, and the
route. -/
structure Request where
  xApiKey : Option String
  authToken : Option Token
  route : RouteCall
deriving DecidableEq

/-- The global `onRequest` hook: the request passes iff
`process.env.API_KEY === request.headers["x-api-key"]` (both absent also
passes, matching JS `undefined !== undefined` being false). -/
def apiKeyGatePasses (env : Env) (xApiKey : Option String) : Bool :=
  env.apiKey == xApiKey

/-- The `authenticate` decorator: `request.jwtVerify()` against the server
secret. -/
def authenticate (env : Env) (req : Request) : Option JwtPayload :=
  match req.authToken with
  | none => none
  | some t => jwtVerify env.jwtSecretKey t

/-- Full dispatch: the global `onRequest` hook runs on every route; the
`authenticate` decorator guards exactly the four user routes; then the route
handler runs. -/
def handleRequest (env : Env) (db : Db) (req : Request) : HandlerResult :=
  if !apiKeyGatePasses env req.xApiKey then
    ⟨⟨403, .empty⟩, db⟩
  else
    match req.route with
    | .authRegister email password => registerHandler env db email password
    | .authLogin email password => loginHandler env db email password
    | .devicesCreate serialNumber =>
      match authenticate env req with
      | none => ⟨unauthorizedResponse, db⟩
      | some user => createDeviceHandler db user serialNumber
    | .devicesDelete id =>
      match authenticate env req with
      | none => ⟨unauthorizedResponse, db⟩
      | some user => deleteDeviceHandler db user id
    | .devicesList =>
      match authenticate env req with
      | none => ⟨unauthorizedResponse, db⟩
      | some user => listDevicesHandler db user
    | .eventsList serialNumber startDate endDate =>
      match authenticate env req with
      | none => ⟨unauthorizedResponse, db⟩
      | some user => getDeviceEventsHandler db user serialNumber startDate endDate
    | .eventsIngest serialNumber body => ingestEventHandler db serialNumber body

/-! ## Spec-side definitions for refinement statements -/

/-- The interval predicate over `happenedAt` given by the table of spec
§4.5. -/
def intervalPred : Option Int → Option Int → Int → Bool
  | none, none, _ => true
  | some s, none, t => s ≤ t
  | none, some e, t => t ≤ e
  | some s, some e, t => s ≤ t && t ≤ e

/-! ## Concrete fixtures used by witnesses and counterexamples -/

/-- An authenticated user identity. -/
def userP : JwtPayload := ⟨1, "user@example.com"⟩

/-- A second authenticated user identity. -/
def userQ : JwtPayload := ⟨2, "other@example.com"⟩

/-- The empty database. -/
def dbEmpty : Db := ⟨[], [], [], [], 0⟩

/-- A stored event of device 10. -/
def evSample : DeviceEvent :=
  ⟨10, "aa:bb:cc:dd:ee:ff", "192.168.0.1", some 1, some 2, some 3, some 4, 100⟩

/-- A database holding device 10 with serial "SN1" and one event, and no
ownership links at all. -/
def dbDevice : Db := ⟨[], [⟨10, "SN1"⟩], [], [evSample], 20⟩

/-- A database where users 1 and 2 both link device 10. -/
def dbTwoOwners : Db := ⟨[], [⟨10, "SN1"⟩], [⟨1, 10⟩, ⟨2, 10⟩], [], 20⟩

/-- A database holding device 10 and three of its events at timestamps 100,
200 and 300. -/
def dbThreeEvents : Db :=
  ⟨[], [⟨10, "SN1"⟩], [],
    [⟨10, "m1", "10.0.0.1", some 0, some 0, some 0, some 0, 100⟩,
     ⟨10, "m2", "10.0.0.2", some 0, some 0, some 0, some 0, 200⟩,
     ⟨10, "m3", "10.0.0.3", some 0, some 0, some 0, some 0, 300⟩], 20⟩

/-- A registered user row with a bcrypt-hashed password. -/
def aliceUser : User := ⟨1, "alice@example.com", bcryptHash "hunter2" 8⟩

/-- A database holding one registered user with a bcrypt-hashed password. -/
def dbOneUser : Db := ⟨[aliceUser], [], [], [], 5⟩

/-- An environment with the ingestion secret set and `JWT_EXPIRES_IN`
unset. -/
def envDefault : Env := ⟨some "ingestion-secret", "jwt-secret", none⟩

/-- An ingestion body whose `soilMoisture` reading is absent and whose other
fields are all present and well-formed. -/
def bodyMissingSoil : RawEventBody :=
  ⟨some "aa:bb:cc:dd:ee:ff", some "192.168.0.1", none, some 2, some 3, some 4,
    some (.iso 100)⟩

/-- A request to the user route `GET /devices` carrying a token signed with
the server secret but no `x-api-key` header. -/
def reqListNoApiKey : Request :=
  ⟨none, some (jwtSign "jwt-secret" userP "7d"), .devicesList⟩

/-! ## Helper lemmas -/

/-- No element satisfying the predicate survives filtering by its negation. -/
theorem any_filter_not_eq_false (l : List Device) (p : Device → Bool) :
    (l.filter (fun d => !p d)).any p = false := by
  induction l with
  | nil => rfl
  | cons d tl ih =>
    by_cases h : p d = true <;> simp [List.filter_cons, h, ih]

/-- The filter object assembled by the three `if` blocks of the event-listing
handler matches a timestamp exactly when the interval predicate of spec §4.5
holds. -/
theorem buildQueryArgs_matches_intervalPred (s e : Option Int) (t : Int) :
    (buildQueryArgs s e).matches t = intervalPred s e t := by
  cases s <;> cases e <;>
    simp [buildQueryArgs, HappenedAtFilter.matches, intervalPred, Bool.and_comm]

/-! ## Claims -/

/-- C2, counterexample: in a database where users 1 and 2 both link device
10, user 1 successfully deletes device 10, yet the ownership link of user 2
referencing the deleted deviceId remains. -/
theorem delete_leaves_other_links_cex :
    (deleteDeviceHandler dbTwoOwners userP 10).response = ⟨200, .empty⟩ ∧
    (deleteDeviceHandler dbTwoOwners userP 10).db.devices = [] ∧
    (deleteDeviceHandler dbTwoOwners userP 10).db.userDevices = [⟨2, 10⟩] := by
  decide

/-- C2, amended: deleting a device removes exactly the ownership links of
the requesting user for that deviceId; links held by other users survive the
deletion. -/
theorem delete_removes_only_requester_links (db : Db) (u : JwtPayload) (id : Nat) :
    (deleteDeviceHandler db u id).db.userDevices =
      db.userDevices.filter (fun ud => !(ud.userId == u.id && ud.deviceId == id)) := by
  simp only [deleteDeviceHandler]
  split <;> rfl

/-- C3, counterexample: with `JWT_EXPIRES_IN` unset the registration flow
signs with expiry "1d" (86400 s) while the login flow signs with the fixed
"7d" (604800 s); moreover the configurable `JWT_EXPIRES_IN` feeds the
registration flow, not the login flow, which always uses "7d". -/
theorem register_expiry_shorter_cex :
    registerExpiresIn envDefault = "1d" ∧
    loginExpiresIn = "7d" ∧
    registerExpiresIn ⟨some "ingestion-secret", "jwt-secret", some "2h"⟩ = "2h" ∧
    expiresInSeconds "1d" = some 86400 ∧
    expiresInSeconds "7d" = some 604800 ∧
    86400 < 604800 := by
  decide

/-- C3, amended: the login flow issues the token with the longer fixed
7-day expiry, while the registration flow uses the configurable default taken
from `JWT_EXPIRES_IN`, falling back to 1 day — shorter than the login expiry
when unset. -/
theorem login_expiry_longer_than_register_default (env : Env)
    (h : env.jwtExpiresIn = none) :
    registerExpiresIn env = "1d" ∧ loginExpiresIn = "7d" ∧
    ∃ r l, expiresInSeconds (registerExpiresIn env) = some r ∧
      expiresInSeconds loginExpiresIn = some l ∧ r < l := by
  refine ⟨by simp [registerExpiresIn, h], rfl, 86400, 604800, ?_, rfl, by norm_num⟩
  simp [registerExpiresIn, h, expiresInSeconds]

/-- C3, witness for the amended claim at the concrete environment with
`JWT_EXPIRES_IN` unset. -/
theorem login_expiry_longer_than_register_default_witness :
    envDefault.jwtExpiresIn = none ∧
    (registerExpiresIn envDefault = "1d" ∧ loginExpiresIn = "7d" ∧
      ∃ r l, expiresInSeconds (registerExpiresIn envDefault) = some r ∧
        expiresInSeconds loginExpiresIn = some l ∧ r < l) :=
  ⟨rfl, login_expiry_longer_than_register_default envDefault rfl⟩

/-- C4, counterexample: a request to the user route `GET /devices` carrying
a session token that the session gate accepts, but no `x-api-key` header, is
rejected 403 by the ingestion-secret gate. -/
theorem valid_token_rejected_by_api_key_gate_cex :
    authenticate envDefault reqListNoApiKey = some userP ∧
    (handleRequest envDefault dbEmpty reqListNoApiKey).response = ⟨403, .empty⟩ := by
  decide

/-- C4, amended: the ingestion-secret gate runs as a global hook on every
route — user-originated and auth routes included — so any request whose
`x-api-key` header does not match `API_KEY` is answered 403 with the state
untouched, even when it carries a valid session token. -/
theorem api_key_gate_applies_to_all_routes (env : Env) (db : Db) (req : Request)
    (h : apiKeyGatePasses env req.xApiKey = false) :
    handleRequest env db req = ⟨⟨403, .empty⟩, db⟩ := by
  unfold handleRequest
  simp [h]

/-- C4, witness for the amended claim: the concrete token-bearing request
with no `x-api-key` header fails the gate and is answered 403. -/
theorem api_key_gate_applies_to_all_routes_witness :
    apiKeyGatePasses envDefault reqListNoApiKey.xApiKey = false ∧
    handleRequest envDefault dbEmpty reqListNoApiKey = ⟨⟨403, .empty⟩, dbEmpty⟩ :=
  ⟨by decide, api_key_gate_applies_to_all_routes envDefault dbEmpty reqListNoApiKey (by decide)⟩

/-- The event-listing response is computed from the device and event
collections alone: it is identical for any two authenticated users and any
two ownership tables over the same devices and events. -/
theorem getDeviceEvents_response_ignores_ownership (db : Db) (u1 u2 : JwtPayload)
    (links1 links2 : List UserDevice) (serial : String) (sd ed : Option DateStr) :
    (getDeviceEventsHandler { db with userDevices := links1 } u1 serial sd ed).response
      = (getDeviceEventsHandler { db with userDevices := links2 } u2 serial sd ed).response := by
  unfold getDeviceEventsHandler
  by_cases h : (serial == "") = true
  · rw [if_pos h, if_pos h]
  · rw [if_neg h, if_neg h]
    have e1 : findDeviceBySerial { db with userDevices := links1 } serial
        = findDeviceBySerial db serial := rfl
    have e2 : findDeviceBySerial { db with userDevices := links2 } serial
        = findDeviceBySerial db serial := rfl
    rw [e1, e2]
    cases findDeviceBySerial db serial with
    | none => rfl
    | some device =>
      cases parseOptDatetime sd <;> cases parseOptDatetime ed <;> rfl

/-- C1, counterexample: user 1 never linked device 10 (the database holds no
ownership link at all), yet listing events for its serial number answers 200
with the events of device 10 rather than 404, and deleting it answers 200 and
removes the device row. -/
theorem unlinked_device_not_hidden_cex :
    dbDevice.userDevices = [] ∧
    (getDeviceEventsHandler dbDevice userP "SN1" none none).response
      = ⟨200, .events [evSample]⟩ ∧
    (deleteDeviceHandler dbDevice userP 10).response = ⟨200, .empty⟩ ∧
    (deleteDeviceHandler dbDevice userP 10).db.devices = [] := by
  decide

/-- C1, amended: neither device-scoped user route consults ownership.  The
event-listing response is identical for any two authenticated users and any
two ownership tables, and deleting an existing device always answers 200 and
removes the device row, whether or not the requester ever linked it; 404
arises only when no device carries the requested serial number. -/
theorem device_routes_ignore_ownership (db : Db) (u1 u2 : JwtPayload)
    (links1 links2 : List UserDevice) (serial : String) (sd ed : Option DateStr)
    (id : Nat) (hdev : db.devices.any (fun d => d.id == id) = true) :
    (getDeviceEventsHandler { db with userDevices := links1 } u1 serial sd ed).response
      = (getDeviceEventsHandler { db with userDevices := links2 } u2 serial sd ed).response
    ∧ (deleteDeviceHandler db u1 id).response = ⟨200, .empty⟩
    ∧ (deleteDeviceHandler db u1 id).db.devices.any (fun d => d.id == id) = false := by
  refine ⟨getDeviceEvents_response_ignores_ownership db u1 u2 links1 links2 serial sd ed,
    ?_, ?_⟩ <;>
    simp [deleteDeviceHandler, hdev, any_filter_not_eq_false]

/-- C1, witness for the amended claim at a concrete database holding device
10 and two different ownership tables. -/
theorem device_routes_ignore_ownership_witness :
    dbDevice.devices.any (fun d => d.id == 10) = true ∧
    ((getDeviceEventsHandler { dbDevice with userDevices := [] } userP "SN1" none none).response
      = (getDeviceEventsHandler { dbDevice with userDevices := [⟨2, 10⟩] } userQ "SN1" none none).response
    ∧ (deleteDeviceHandler dbDevice userP 10).response = ⟨200, .empty⟩
    ∧ (deleteDeviceHandler dbDevice userP 10).db.devices.any (fun d => d.id == 10) = false) :=
  ⟨by decide,
    device_routes_ignore_ownership dbDevice userP userQ [] [⟨2, 10⟩] "SN1" none none 10
      (by decide)⟩

/-- C5, counterexample: an ingestion body whose `soilMoisture` reading is
absent (all other fields present and well-formed) is rejected by the schema
parse with the validation error and nothing is stored, rather than being
accepted with the field null. -/
theorem missing_reading_rejected_cex :
    bodyMissingSoil.soilMoisture = none ∧
    ingestEventHandler dbEmpty "SN1" bodyMissingSoil = ⟨zodErrorResponse, dbEmpty⟩ := by
  decide

/-- C5, amended: all four sensor readings are required by the ingestion
schema: a request body with any reading absent is rejected with the
validation error and the database is left unchanged (the storage schema does
permit null readings, but the ingestion route never accepts one). -/
theorem sensor_readings_required (db : Db) (serial : String) (b : RawEventBody)
    (h : b.soilMoisture = none ∨ b.humidity = none ∨ b.temperature = none ∨
      b.lighIntensity = none) :
    ingestEventHandler db serial b = ⟨zodErrorResponse, db⟩ := by
  have hp : eventSchemaParse b = none := by
    rcases b with ⟨mac, ip, sm, hu, te, li, ha⟩
    cases mac <;> cases ip <;> cases sm <;> cases hu <;> cases te <;> cases li <;>
      cases ha <;> simp_all [eventSchemaParse]
  unfold ingestEventHandler
  rw [hp]

/-- C5, witness for the amended claim at the concrete body missing its
`soilMoisture` reading. -/
theorem sensor_readings_required_witness :
    (bodyMissingSoil.soilMoisture = none ∨ bodyMissingSoil.humidity = none ∨
      bodyMissingSoil.temperature = none ∨ bodyMissingSoil.lighIntensity = none) ∧
    ingestEventHandler dbEmpty "SN1" bodyMissingSoil = ⟨zodErrorResponse, dbEmpty⟩ :=
  ⟨by decide, sensor_readings_required dbEmpty "SN1" bodyMissingSoil (by decide)⟩

/-- C6, counterexample: a listing request with a malformed `startDate` for a
serial number no device carries is answered 404 by the device lookup, not 400:
the lookup runs first and decides the outcome before date validation. -/
theorem malformed_date_after_lookup_cex :
    parseOptDatetime (some (.malformed "not-a-date")) = none ∧
    (getDeviceEventsHandler dbEmpty userP "SN1" (some (.malformed "not-a-date")) none).response
      = ⟨404, .message "Can not find the device"⟩ ∧
    (getDeviceEventsHandler dbEmpty userP "SN1" (some (.malformed "not-a-date")) none).response
      ≠ zodErrorResponse := by
  decide

/-- C6, amended: a malformed `startDate`/`endDate` fails with the validation
error only after the device lookup by serial number: when no device carries
the serial the response is 404 NotFound, and only when the device exists does
the malformed date produce the validation error. -/
theorem date_validation_after_device_lookup (db : Db) (u : JwtPayload)
    (serial : String) (sd ed : Option DateStr)
    (hserial : (serial == "") = false)
    (hmal : parseOptDatetime sd = none ∨ parseOptDatetime ed = none) :
    (getDeviceEventsHandler db u serial sd ed).response =
      match findDeviceBySerial db serial with
      | none => ⟨404, .message "Can not find the device"⟩
      | some _ => zodErrorResponse := by
  unfold getDeviceEventsHandler
  simp only [hserial, Bool.false_eq_true, if_false]
  cases hdev : findDeviceBySerial db serial with
  | none => rfl
  | some device =>
    rcases hmal with h | h
    · rw [h]
    · cases hsd : parseOptDatetime sd with
      | none => rfl
      | some s => rw [h]

/-- C6, witness for the amended claim at a database that does hold the
requested serial number, where a malformed date yields the validation
error. -/
theorem date_validation_after_device_lookup_witness :
    ((("SN1" : String) == "") = false ∧
      (parseOptDatetime (some (.malformed "nope")) = none ∨
        parseOptDatetime (none : Option DateStr) = none)) ∧
    (getDeviceEventsHandler dbDevice userP "SN1" (some (.malformed "nope")) none).response =
      (match findDeviceBySerial dbDevice "SN1" with
        | none => ⟨404, .message "Can not find the device"⟩
        | some _ => zodErrorResponse) :=
  ⟨⟨by decide, Or.inl rfl⟩,
    date_validation_after_device_lookup dbDevice userP "SN1"
      (some (.malformed "nope")) none (by decide) (Or.inl rfl)⟩

/-- C7: for every combination of optional bounds, the event listing returns
exactly the events of the resolved device whose `happenedAt` satisfies the
interval predicate of spec §4.5 — unconstrained when both bounds are absent,
`startDate <= happenedAt` when only `startDate` is present, `happenedAt <=
endDate` when only `endDate` is present, and inclusive at both ends when both
are present. -/
theorem events_listing_matches_interval (db : Db) (u : JwtPayload) (serial : String)
    (sd ed : Option DateStr) (device : Device) (s e : Option Int)
    (hserial : (serial == "") = false)
    (hdev : findDeviceBySerial db serial = some device)
    (hsd : parseOptDatetime sd = some s) (hed : parseOptDatetime ed = some e) :
    getDeviceEventsHandler db u serial sd ed =
      ⟨⟨200, .events (db.deviceEvents.filter
        (fun ev => ev.deviceId == device.id && intervalPred s e ev.happenedAt))⟩, db⟩ := by
  unfold getDeviceEventsHandler
  simp only [hserial, Bool.false_eq_true, if_false, hdev, hsd, hed,
    buildQueryArgs_matches_intervalPred]

/-- C7, witness: over events at timestamps 100, 200 and 300 with bounds 150
and 250, the listing returns exactly the event at 200 (both ends would also
be included, the bounds being inclusive). -/
theorem events_listing_matches_interval_witness :
    ((("SN1" : String) == "") = false ∧
      findDeviceBySerial dbThreeEvents "SN1" = some ⟨10, "SN1"⟩ ∧
      parseOptDatetime (some (.iso 150)) = some (some 150) ∧
      parseOptDatetime (some (.iso 250)) = some (some 250)) ∧
    getDeviceEventsHandler dbThreeEvents userP "SN1" (some (.iso 150)) (some (.iso 250)) =
      ⟨⟨200, .events [⟨10, "m2", "10.0.0.2", some 0, some 0, some 0, some 0, 200⟩]⟩,
        dbThreeEvents⟩ :=
  ⟨⟨by decide, by decide, rfl, rfl⟩,
    events_listing_matches_interval dbThreeEvents userP "SN1" (some (.iso 150))
      (some (.iso 250)) ⟨10, "SN1"⟩ (some 150) (some 250) (by decide) (by decide) rfl rfl⟩

/-- C8: registering an email that some stored user already carries answers
409 Conflict and returns the database unchanged — no second User row is
created. -/
theorem duplicate_email_conflict (env : Env) (db : Db) (email password : String)
    (h : ∃ u0 ∈ db.users, u0.email = email) :
    registerHandler env db email password = ⟨⟨409, .message "User already exists"⟩, db⟩ := by
  obtain ⟨u0, hmem, hemail⟩ := h
  have hsome : (findUserByEmail db email).isSome := by
    unfold findUserByEmail
    rw [List.find?_isSome]
    exact ⟨u0, hmem, by simp [hemail]⟩
  obtain ⟨u1, hfind⟩ := Option.isSome_iff_exists.mp hsome
  unfold registerHandler
  rw [hfind]

/-- C8, witness: re-registering the stored address answers 409 and leaves
the user table as it was. -/
theorem duplicate_email_conflict_witness :
    (∃ u0 ∈ dbOneUser.users, u0.email = "alice@example.com") ∧
    registerHandler envDefault dbOneUser "alice@example.com" "anotherpw"
      = ⟨⟨409, .message "User already exists"⟩, dbOneUser⟩ :=
  ⟨⟨aliceUser, by decide, by decide⟩,
    duplicate_email_conflict envDefault dbOneUser "alice@example.com" "anotherpw"
      ⟨aliceUser, by decide, by decide⟩⟩

/-- C9: every login failure — whether the email matches no stored user or
the password does not verify against the stored hash — produces the one
response 401 with body "Email or password incorrect", so the two causes are
indistinguishable to the caller. -/
theorem login_failure_uniform_response (env : Env) (db : Db) (email password : String)
    (h : findUserByEmail db email = none ∨
      ∃ u0, findUserByEmail db email = some u0 ∧ bcryptCompare password u0.password = false) :
    loginHandler env db email password = ⟨⟨401, .message "Email or password incorrect"⟩, db⟩ := by
  unfold loginHandler
  rcases h with h | ⟨u0, hfind, hcmp⟩
  · rw [h]
  · rw [hfind]
    simp [hcmp]

/-- C9, witness: both failure causes exercised concretely — unknown email on
an empty user table, and a wrong password against the stored hash — produce
the identical 401 response. -/
theorem login_failure_uniform_response_witness :
    (findUserByEmail dbEmpty "alice@example.com" = none ∧
      loginHandler envDefault dbEmpty "alice@example.com" "hunter2"
        = ⟨⟨401, .message "Email or password incorrect"⟩, dbEmpty⟩) ∧
    ((∃ u0, findUserByEmail dbOneUser "alice@example.com" = some u0 ∧
        bcryptCompare "wrongpw" u0.password = false) ∧
      loginHandler envDefault dbOneUser "alice@example.com" "wrongpw"
        = ⟨⟨401, .message "Email or password incorrect"⟩, dbOneUser⟩) :=
  ⟨⟨by decide,
      login_failure_uniform_response envDefault dbEmpty "alice@example.com" "hunter2"
        (Or.inl (by decide))⟩,
    ⟨⟨aliceUser, by decide⟩,
      login_failure_uniform_response envDefault dbOneUser "alice@example.com" "wrongpw"
        (Or.inr ⟨aliceUser, by decide⟩)⟩⟩

/-- C10: when a device with the requested serial number already exists,
`POST /devices` answers 201 with the existing device and returns the database
unchanged — no new Device row, no ownership link for the requester — so the
device listing of the requester is also unchanged. -/
theorem create_existing_device_no_change (db : Db) (u : JwtPayload) (serial : String)
    (d : Device) (h : findDeviceBySerial db serial = some d) :
    createDeviceHandler db u serial = ⟨⟨201, .device d⟩, db⟩ ∧
    listDevicesHandler (createDeviceHandler db u serial).db u = listDevicesHandler db u := by
  have h1 : createDeviceHandler db u serial = ⟨⟨201, .device d⟩, db⟩ := by
    unfold createDeviceHandler
    rw [h]
  exact ⟨h1, by rw [h1]⟩

/-- C10, witness: re-registering the stored serial number answers 201 with
the existing device row and changes nothing. -/
theorem create_existing_device_no_change_witness :
    findDeviceBySerial dbDevice "SN1" = some ⟨10, "SN1"⟩ ∧
    (createDeviceHandler dbDevice userP "SN1" = ⟨⟨201, .device ⟨10, "SN1"⟩⟩, dbDevice⟩ ∧
      listDevicesHandler (createDeviceHandler dbDevice userP "SN1").db userP
        = listDevicesHandler dbDevice userP) :=
  ⟨by decide,
    create_existing_device_no_change dbDevice userP "SN1" ⟨10, "SN1"⟩ (by decide)⟩

end SmhdApi
